import Mathlib

/-!
Verification of the Canton-LedgerView client, store and explorer logic.

The TypeScript sources (src/services/cantonClient.ts, the Zustand store,
and the Scan explorer page) are shallowly embedded as executable Lean
definitions.  Conventions used throughout:

* JSON payload blobs (`Record<string, unknown>`) are modelled as opaque
  strings; their contents are never inspected by the code under study.
* A thrown JavaScript value is modelled by the `Thrown` type: either an
  `Error` carrying a message or some non-`Error` value.  A function that
  can throw is embedded as a function out of an `Except` outcome of the
  underlying remote call, so every possible response is a plain argument.
* `Map` objects are modelled as association lists with `Map.set`
  insert-or-replace semantics.
* ISO-8601 timestamps that the code only feeds into date arithmetic are
  modelled by their epoch-millisecond value.
-/

namespace Canton

/-- Party representation, from the `Party` interface in types/canton.ts. -/
structure Party where
  partyId : String
  displayName : Option String
  isLocal : Bool
  deriving DecidableEq, Repr

/-- Contract data, from the `Contract` interface in types/canton.ts.
The `payload` JSON object is modelled as an opaque string. -/
structure Contract where
  contractId : String
  templateId : String
  payload : String
  stakeholders : List String
  observers : List String
  signatories : List String
  createdAt : String
  offset : Int
  contractKey : Option String
  createdEventBlob : Option String
  deriving DecidableEq, Repr

/-- Created event, from the `CreatedEvent` interface in types/canton.ts.
The `createArguments` JSON object is modelled as an opaque string. -/
structure CreatedEvent where
  eventId : String
  contractId : String
  templateId : String
  offset : Int
  createArguments : String
  contractKey : Option String
  signatories : List String
  observers : List String
  createdEventBlob : Option String
  deriving DecidableEq, Repr

/-- Transaction, from the `Transaction` interface in types/canton.ts
(the event list is not consumed by the code under study and is omitted). -/
structure Transaction where
  updateId : String
  offset : Int
  effectiveAt : String
  deriving DecidableEq, Repr

/-- Package information, from the `Package` interface in types/canton.ts. -/
structure Package where
  packageId : String
  packageSize : Int
  knownSince : String
  sourceDescription : String
  deriving DecidableEq, Repr

/-- Ledger end response, from the `LedgerEnd` interface in types/canton.ts. -/
structure LedgerEnd where
  offset : Int
  deriving DecidableEq, Repr

/-- Connection status, from the `ConnectionStatus` interface in
types/canton.ts. -/
structure ConnectionStatus where
  connected : Bool
  endpoint : String
  ledgerEnd : Option Int
  participantId : Option String
  error : Option String
  deriving DecidableEq, Repr

/-- Connection configuration, from the `ConnectionConfig` interface in
types/canton.ts (TLS fields are unused by the code under study). -/
structure ConnectionConfig where
  endpoint : String
  authToken : Option String
  deriving DecidableEq, Repr

/-- Template metadata, from the `Template` interface in types/canton.ts
(choices omitted; the code under study never reads them). -/
structure Template where
  templateId : String
  packageId : String
  moduleName : String
  entityName : String
  deriving DecidableEq, Repr

/-- A thrown JavaScript value: an `Error` with a message, or anything else.
Used to model `catch (error)` blocks that test `error instanceof Error`. -/
inductive Thrown where
  | isError (message : String)
  | notError
  deriving DecidableEq, Repr

/-- Evaluates `error instanceof Error ? error.message : fallback`. -/
def thrownMessage (t : Thrown) (fallback : String) : String :=
  match t with
  | .isError m => m
  | .notError => fallback

/-- JavaScript `a || b` on an optional string: `undefined` and the empty
string are falsy, anything else wins. -/
def jsOr (o : Option String) (fallback : String) : String :=
  match o with
  | some v => if v = "" then fallback else v
  | none => fallback

end Canton

namespace CantonClient

open Canton

/-- Embeds `CantonClient.eventToContract` (cantonClient.ts lines 414-427).
The source stamps `createdAt` with `new Date().toISOString()`; that wall
clock read is passed in as the explicit `nowIso` argument. -/
def eventToContract (nowIso : String) (event : CreatedEvent) (offset : Int) : Contract :=
  { contractId := event.contractId
    templateId := event.templateId
    payload := event.createArguments
    stakeholders := event.signatories ++ event.observers
    observers := event.observers
    signatories := event.signatories
    createdAt := nowIso
    offset := offset
    contractKey := event.contractKey
    createdEventBlob := event.createdEventBlob }

/-- Embeds `CantonClient.getConnectionStatus` (cantonClient.ts lines
122-137).  The `ping` argument is the outcome of
`this.get('/v2/state/ledger-end')`; the source wraps the call in a
catch-all `try`, so the embedding is total over every ping outcome,
including non-`Error` throws. -/
def getConnectionStatus (endpoint : String) (ping : Except Thrown LedgerEnd) : ConnectionStatus :=
  match ping with
  | .ok ledgerEnd =>
    { connected := true
      endpoint := endpoint
      ledgerEnd := some ledgerEnd.offset
      participantId := none
      error := none }
  | .error e =>
    { connected := false
      endpoint := endpoint
      ledgerEnd := none
      participantId := none
      error := some (thrownMessage e "Unknown error") }

/-- Canton API error thrown by `request` on a non-2xx response
(cantonClient.ts lines 434-443), or any other thrown value. -/
inductive ReqError where
  | api (status : Nat) (message : String)
  | other (message : String)
  deriving DecidableEq, Repr

/-- Evaluates `error instanceof CantonAPIError && error.status === 404`. -/
def reqErrorIs404 (e : ReqError) : Bool :=
  match e with
  | .api status _ => status == 404
  | .other _ => false

/-- Embeds `CantonClient.getContract` (cantonClient.ts lines 209-233).
The `response` argument is the outcome of the POST to
`/v2/events/contract`, whose parsed body carries an optional `created`
event. -/
def getContract (nowIso : String) (response : Except ReqError (Option CreatedEvent)) :
    Except ReqError (Option Contract) :=
  match response with
  | .ok (some created) => .ok (some (eventToContract nowIso created created.offset))
  | .ok none => .ok none
  | .error e => if reqErrorIs404 e then .ok none else .error e

/-- Embeds `CantonClient.getTransaction` (cantonClient.ts lines 316-331).
The `response` argument is the outcome of the POST to
`/v2/updates/transaction-by-id`. -/
def getTransaction (response : Except ReqError Transaction) :
    Except ReqError (Option Transaction) :=
  match response with
  | .ok t => .ok (some t)
  | .error e => if reqErrorIs404 e then .ok none else .error e

/-- Embeds `CantonClient.getPackage` (cantonClient.ts lines 350-359).
The `response` argument is the outcome of the GET of `/v2/packages/id`. -/
def getPackage (response : Except ReqError Package) :
    Except ReqError (Option Package) :=
  match response with
  | .ok pkg => .ok (some pkg)
  | .error e => if reqErrorIs404 e then .ok none else .error e

/-- Wildcard filter value, from the `WildcardFilter` interface in
types/canton.ts. -/
structure WildcardFilterValue where
  includeCreatedEventBlob : Bool
  deriving DecidableEq, Repr

/-- Template filter value, from the `TemplateFilter` interface in
types/canton.ts. -/
structure TemplateFilterValue where
  templateId : String
  includeCreatedEventBlob : Bool
  deriving DecidableEq, Repr

/-- Identifier filter union, from types/canton.ts (the interface variant
carries no data used by the code under study). -/
inductive IdentifierFilterChoice where
  | WildcardFilter (value : WildcardFilterValue)
  | TemplateFilter (value : TemplateFilterValue)
  deriving DecidableEq, Repr

/-- One cumulative filter clause, from the `IdentifierFilter` interface in
types/canton.ts. -/
structure IdentifierFilter where
  identifierFilter : IdentifierFilterChoice
  deriving DecidableEq, Repr

/-- Per-party filter, from the `PartyFilter` interface in types/canton.ts
(the `cumulative` list is always present in values this code builds). -/
structure PartyFilter where
  cumulative : List IdentifierFilter
  deriving DecidableEq, Repr

/-- Any-party filter, from the `AnyPartyFilter` interface in
types/canton.ts. -/
structure AnyPartyFilter where
  cumulative : List IdentifierFilter
  deriving DecidableEq, Repr

/-- Transaction filter, from the `TransactionFilter` interface in
types/canton.ts; the `filtersByParty` record is an association list. -/
structure TransactionFilter where
  filtersByParty : List (String × PartyFilter)
  filtersForAnyParty : Option AnyPartyFilter
  deriving DecidableEq, Repr

/-- Embeds `CantonClient.buildTransactionFilter` (cantonClient.ts lines
368-409).  The optional `templateIds` parameter mirrors the source guard
`!templateIds || templateIds.length === 0`. -/
def buildTransactionFilter (partyId : String) (templateIds : Option (List String)) :
    TransactionFilter :=
  if (templateIds.getD []).isEmpty then
    { filtersByParty := []
      filtersForAnyParty := some
        { cumulative :=
            [ { identifierFilter := .WildcardFilter { includeCreatedEventBlob := true } } ] } }
  else
    { filtersByParty :=
        [ (partyId,
           { cumulative := (templateIds.getD []).map fun templateId =>
               { identifierFilter := .TemplateFilter
                   { templateId := templateId, includeCreatedEventBlob := true } } }) ]
      filtersForAnyParty := none }

end CantonClient

namespace Canton

/-- Inserts into a JavaScript `Map` modelled as an association list:
an existing key is overwritten in place, a new key is appended. -/
def mapSet (m : List (String × Contract)) (k : String) (v : Contract) :
    List (String × Contract) :=
  match m with
  | [] => [(k, v)]
  | (k1, v1) :: rest => if k1 = k then (k, v) :: rest else (k1, v1) :: mapSet rest k v

/-- A created event whose single party is both a signatory and an observer. -/
def dupPartyEvent : CreatedEvent :=
  { eventId := "ev1"
    contractId := "c1"
    templateId := "Pkg:Mod:Asset"
    offset := 0
    createArguments := "args"
    contractKey := none
    signatories := ["Alice"]
    observers := ["Alice"]
    createdEventBlob := none }

/-- An event whose signatories and observers are disjoint. -/
def disjointPartyEvent : CreatedEvent :=
  { eventId := "ev2"
    contractId := "c2"
    templateId := "Pkg:Mod:Asset"
    offset := 0
    createArguments := "args"
    contractKey := none
    signatories := ["Alice"]
    observers := ["Bob"]
    createdEventBlob := none }

end Canton

open Canton

/-- C1 counterexample: for a created event in which the party "Alice" is
both a signatory and an observer, the Contract built by `eventToContract`
lists "Alice" twice in `stakeholders`, so the claimed idempotent-union
invariant (no party appears more than once) is false on the code. -/
theorem eventToContract_dup_stakeholders :
    "Alice" ∈ dupPartyEvent.signatories ∧
    "Alice" ∈ dupPartyEvent.observers ∧
    (CantonClient.eventToContract "2026-01-01T00:00:00Z" dupPartyEvent 0).stakeholders
      = ["Alice", "Alice"] ∧
    ¬ (CantonClient.eventToContract "2026-01-01T00:00:00Z" dupPartyEvent 0).stakeholders.Nodup := by
  refine ⟨by decide, by decide, rfl, by decide⟩

/-- C1 (amended): the Contract built by `eventToContract` has
`stakeholders` equal to the concatenation of `signatories` and
`observers`.  Membership-wise this is exactly the union — a party is a
stakeholder iff it is a signatory or an observer — but duplicates are not
removed: the list is duplicate-free only when the two input lists are
duplicate-free and disjoint. -/
theorem eventToContract_stakeholders_union (nowIso : String) (event : CreatedEvent) (offset : Int) :
    (CantonClient.eventToContract nowIso event offset).stakeholders
      = event.signatories ++ event.observers ∧
    (∀ p : String, p ∈ (CantonClient.eventToContract nowIso event offset).stakeholders ↔
      p ∈ event.signatories ∨ p ∈ event.observers) ∧
    (event.signatories.Nodup → event.observers.Nodup →
      (∀ p ∈ event.signatories, p ∉ event.observers) →
      (CantonClient.eventToContract nowIso event offset).stakeholders.Nodup) := by
  refine ⟨rfl, ?_, ?_⟩
  · intro p
    simp [CantonClient.eventToContract]
  · intro h1 h2 hdisj
    simp only [CantonClient.eventToContract, List.nodup_append]
    exact ⟨h1, h2, fun p hp hq => hdisj p hp hq⟩

/-- Witness for the amended C1 theorem at a concrete disjoint event. -/
theorem eventToContract_stakeholders_union_witness :
    (CantonClient.eventToContract "t" disjointPartyEvent 0).stakeholders.Nodup :=
  (eventToContract_stakeholders_union "t" disjointPartyEvent 0).2.2
    (by decide) (by decide) (by decide)

/-- C3: `getContract`, `getTransaction` and `getPackage` map a 404 Canton
API error (and, for `getContract`, a 2xx body with no created event) to
`null`; any other Canton API error and any non-API thrown value propagate
unchanged; a 2xx response yields the parsed value. -/
theorem pointLookups_null_on_404 (nowIso m : String) (s : Nat)
    (created : CreatedEvent) (t : Transaction) (pkg : Package) (hs : s ≠ 404) :
    CantonClient.getContract nowIso (.error (.api 404 m)) = .ok none ∧
    CantonClient.getContract nowIso (.ok none) = .ok none ∧
    CantonClient.getContract nowIso (.error (.api s m)) = .error (.api s m) ∧
    CantonClient.getContract nowIso (.error (.other m)) = .error (.other m) ∧
    CantonClient.getContract nowIso (.ok (some created))
      = .ok (some (CantonClient.eventToContract nowIso created created.offset)) ∧
    CantonClient.getTransaction (.error (.api 404 m)) = .ok none ∧
    CantonClient.getTransaction (.error (.api s m)) = .error (.api s m) ∧
    CantonClient.getTransaction (.error (.other m)) = .error (.other m) ∧
    CantonClient.getTransaction (.ok t) = .ok (some t) ∧
    CantonClient.getPackage (.error (.api 404 m)) = .ok none ∧
    CantonClient.getPackage (.error (.api s m)) = .error (.api s m) ∧
    CantonClient.getPackage (.error (.other m)) = .error (.other m) ∧
    CantonClient.getPackage (.ok pkg) = .ok (some pkg) := by
  refine ⟨rfl, rfl, ?_, rfl, rfl, rfl, ?_, rfl, rfl, rfl, ?_, rfl, rfl⟩ <;>
    simp [CantonClient.getContract, CantonClient.getTransaction,
      CantonClient.getPackage, CantonClient.reqErrorIs404, hs]

/-- Witness for C3 at status 500: a server error propagates instead of
becoming null. -/
theorem pointLookups_null_on_404_witness :
    CantonClient.getContract "t" (.error (.api 500 "boom")) = .error (.api 500 "boom") :=
  (pointLookups_null_on_404 "t" "boom" 500 dupPartyEvent
    ⟨"u", 0, "e"⟩ ⟨"p", 0, "k", "d"⟩ (by decide)).2.2.1

/-- C4: with no template ids (absent or empty list) the built filter has an
empty `filtersByParty` map and a `filtersForAnyParty` entry whose single
cumulative clause is a wildcard filter requesting created-event blobs;
with a non-empty template-id list it is keyed exactly by the requesting
party, carries one template clause per supplied id, and has no
`filtersForAnyParty` entry. -/
theorem buildTransactionFilter_spec (partyId : String) (ts : List String) (hts : ts ≠ []) :
    (CantonClient.buildTransactionFilter partyId none).filtersByParty = [] ∧
    (CantonClient.buildTransactionFilter partyId none).filtersForAnyParty
      = some { cumulative :=
          [ { identifierFilter := .WildcardFilter { includeCreatedEventBlob := true } } ] } ∧
    CantonClient.buildTransactionFilter partyId (some [])
      = CantonClient.buildTransactionFilter partyId none ∧
    (CantonClient.buildTransactionFilter partyId (some ts)).filtersByParty
      = [ (partyId,
           { cumulative := ts.map fun templateId =>
               { identifierFilter := .TemplateFilter
                   { templateId := templateId, includeCreatedEventBlob := true } } }) ] ∧
    ((CantonClient.buildTransactionFilter partyId (some ts)).filtersByParty.map Prod.fst)
      = [partyId] ∧
    (CantonClient.buildTransactionFilter partyId (some ts)).filtersForAnyParty = none := by
  cases ts with
  | nil => exact absurd rfl hts
  | cons t rest =>
    refine ⟨rfl, rfl, rfl, ?_, ?_, ?_⟩ <;> simp [CantonClient.buildTransactionFilter]

/-- Witness for C4 at the template list containing exactly T1: the filter
is keyed by the requesting party with a single cumulative clause. -/
theorem buildTransactionFilter_spec_witness :
    (CantonClient.buildTransactionFilter "P" (some ["T1"])).filtersByParty
      = [ ("P",
           { cumulative :=
               [ { identifierFilter := .TemplateFilter
                     { templateId := "T1", includeCreatedEventBlob := true } } ] }) ] := by
  have h := (buildTransactionFilter_spec "P" ["T1"] (by decide)).2.2.2.1
  simpa using h

/-- C6: `getConnectionStatus` is a total function of the ping outcome — it
never throws.  On success it reports connected with the ledger end
offset; on any failure, `Error` or not, it reports not connected with an
error message and the same endpoint. -/
theorem getConnectionStatus_total (endpoint : String) (ping : Except Thrown LedgerEnd) :
    (∀ ledgerEnd, ping = .ok ledgerEnd →
      CantonClient.getConnectionStatus endpoint ping =
        { connected := true, endpoint := endpoint, ledgerEnd := some ledgerEnd.offset,
          participantId := none, error := none }) ∧
    (∀ e, ping = .error e →
      (CantonClient.getConnectionStatus endpoint ping).connected = false ∧
      (CantonClient.getConnectionStatus endpoint ping).endpoint = endpoint ∧
      (CantonClient.getConnectionStatus endpoint ping).error
        = some (thrownMessage e "Unknown error")) := by
  constructor
  · intro le hle
    subst hle
    rfl
  · intro e he
    subst he
    exact ⟨rfl, rfl, rfl⟩

/-- Witness for C6 on a non-Error throw: the status is a value, not an
exception, and carries the fallback message. -/
theorem getConnectionStatus_total_witness :
    (CantonClient.getConnectionStatus "http://node" (.error .notError)).connected = false ∧
    (CantonClient.getConnectionStatus "http://node" (.error .notError)).endpoint = "http://node" ∧
    (CantonClient.getConnectionStatus "http://node" (.error .notError)).error
      = some "Unknown error" :=
  (getConnectionStatus_total "http://node" (.error .notError)).2 .notError rfl

namespace Store

open Canton

/-- State of the Zustand ledger store: the connection, party-lens and data
slices of `StoreState`.  The UI and Scan slices are untouched by every
operation studied here and are omitted.  A `CantonClient` instance is
identified by a numeric id, since the store only stores and compares the
reference. -/
structure StoreState where
  config : Option ConnectionConfig
  status : ConnectionStatus
  client : Option Nat
  activeParty : Option Party
  availableParties : List Party
  viewAsObserver : Bool
  contracts : List (String × Contract)
  transactions : List Transaction
  templates : List (String × Template)
  lastOffset : Int
  isLoading : Bool
  error : Option String
  deriving DecidableEq, Repr

/-- Embeds the store `connect` action (store source lines 178-221).
Arguments stand for the effects of the two awaited calls: `probe` is the
`client.getConnectionStatus()` result (that method never throws, see
`getConnectionStatus_total`), `parties` the `client.getParties()` outcome.
`clientId` identifies the client freshly created at the top of the action.
Returns the new store state and the boolean the action resolves with. -/
def connect (s : StoreState) (config : ConnectionConfig) (clientId : Nat)
    (probe : ConnectionStatus) (parties : Except Thrown (List Party)) :
    StoreState × Bool :=
  let s1 : StoreState := { s with isLoading := true, error := none }
  if probe.connected = false then
    ({ s1 with
        status := probe
        error := some (jsOr probe.error "Failed to connect")
        isLoading := false }, false)
  else
    match parties with
    | .ok ps =>
      ({ s1 with
          config := some config
          client := some clientId
          status := probe
          availableParties := ps
          isLoading := false
          error := none }, true)
    | .error e =>
      let errorMessage := thrownMessage e "Connection failed"
      ({ s1 with
          status :=
            { connected := false, endpoint := config.endpoint, ledgerEnd := none,
              participantId := none, error := some errorMessage }
          error := some errorMessage
          isLoading := false }, false)

/-- Embeds the synchronous prefix of the store `loadContracts` action
(store source lines 280-284 plus the leading `set`): the guard returns
unchanged when no client or no active party is set; otherwise the loading
flag is raised, the error cleared, and the request goes out for the
active party, whose id is returned. -/
def loadContractsStart (s : StoreState) : StoreState × Option String :=
  match s.client, s.activeParty with
  | some _, some party => ({ s with isLoading := true, error := none }, some party.partyId)
  | _, _ => (s, none)

/-- Builds the `Map<string, Contract>` keyed by contract id that
`loadContracts` commits (store source lines 296-299). -/
def contractMapOf (contracts : List Contract) : List (String × Contract) :=
  contracts.foldl (fun m c => mapSet m c.contractId c) []

/-- Embeds the continuation of `loadContracts` after the
`client.getActiveContracts` promise settles (store source lines 287-310):
on success the contract map is replaced wholesale, on failure the error
string is recorded; either way the loading flag drops. -/
def loadContractsFinish (s : StoreState) (result : Except Thrown (List Contract)) :
    StoreState :=
  match result with
  | .ok contracts => { s with contracts := contractMapOf contracts, isLoading := false }
  | .error e =>
    { s with error := some (thrownMessage e "Failed to load contracts"), isLoading := false }

/-- The whole `loadContracts` action run without interleaving: the start
phase immediately followed by the completion for the same request. -/
def loadContracts (s : StoreState) (result : Except Thrown (List Contract)) : StoreState :=
  match loadContractsStart s with
  | (s1, some _) => loadContractsFinish s1 result
  | (s1, none) => s1

/-- Embeds the synchronous prefix of the store `loadTransactions` action
(store source lines 313-317 plus the leading `set`), mirroring
`loadContractsStart`. -/
def loadTransactionsStart (s : StoreState) : StoreState × Option String :=
  match s.client, s.activeParty with
  | some _, some party => ({ s with isLoading := true, error := none }, some party.partyId)
  | _, _ => (s, none)

/-- Evaluates `transactions.length > 0 ? Math.max(...offsets) : lastOffset`
(store source lines 329-331). -/
def maxOffset (transactions : List Transaction) (lastOffset : Int) : Int :=
  match transactions with
  | [] => lastOffset
  | t :: rest => rest.foldl (fun acc x => max acc x.offset) t.offset

/-- Embeds the continuation of `loadTransactions` after the
`client.getTransactions` promise settles (store source lines 320-343). -/
def loadTransactionsFinish (s : StoreState) (result : Except Thrown (List Transaction)) :
    StoreState :=
  match result with
  | .ok ts =>
    { s with transactions := ts, lastOffset := maxOffset ts s.lastOffset, isLoading := false }
  | .error e =>
    { s with error := some (thrownMessage e "Failed to load transactions"), isLoading := false }

/-- The whole `loadTransactions` action run without interleaving. -/
def loadTransactions (s : StoreState) (result : Except Thrown (List Transaction)) :
    StoreState :=
  match loadTransactionsStart s with
  | (s1, some _) => loadTransactionsFinish s1 result
  | (s1, none) => s1

/-- Store state paired with the contract-load requests still in flight,
each identified by the party id read when the request was issued.  The
source has no cancellation or generation token, so a completion is only
the party id of its response. -/
structure SchedulerState where
  store : StoreState
  pendingLoads : List String
  deriving DecidableEq, Repr

/-- Interleaving events of the store on the single JS thread: issuing a
contract load, switching the active party (`setActiveParty`, store source
lines 253-257, whose `refreshData` immediately issues a load for the new
party), and the arrival of the response to the i-th in-flight request. -/
inductive StoreEvent where
  | startLoadContracts
  | setActiveParty (party : Party)
  | completeLoadContracts (i : Nat)
  deriving DecidableEq, Repr

/-- Appends a newly issued request, if the guard let one out. -/
def appendReq (pending : List String) (req : Option String) : List String :=
  match req with
  | some partyId => pending ++ [partyId]
  | none => pending

/-- One scheduler step.  `env` is the ledger: the active contracts the
server returns for a given party id.  A completion commits its response
through `loadContractsFinish` exactly as the source does — unconditionally,
with no check that the active party still matches the request. -/
def stepStore (env : String → List Contract) (σ : SchedulerState) (ev : StoreEvent) :
    SchedulerState :=
  match ev with
  | .startLoadContracts =>
    let r := loadContractsStart σ.store
    { store := r.1, pendingLoads := appendReq σ.pendingLoads r.2 }
  | .setActiveParty party =>
    let s1 := { σ.store with activeParty := some party }
    let r := loadContractsStart s1
    { store := r.1, pendingLoads := appendReq σ.pendingLoads r.2 }
  | .completeLoadContracts i =>
    match σ.pendingLoads[i]? with
    | some partyId =>
      { store := loadContractsFinish σ.store (.ok (env partyId))
        pendingLoads := σ.pendingLoads.eraseIdx i }
    | none => σ

/-- Runs a sequence of scheduler events. -/
def runStore (env : String → List Contract) (σ : SchedulerState)
    (events : List StoreEvent) : SchedulerState :=
  events.foldl (stepStore env) σ

end Store

namespace Store

open Canton

/-- Party P1 of the race scenario. -/
def p1 : Party := { partyId := "P1", displayName := none, isLocal := true }

/-- Party P2 of the race scenario. -/
def p2 : Party := { partyId := "P2", displayName := none, isLocal := true }

/-- A contract visible only to P1. -/
def p1Contract : Contract :=
  { contractId := "c1", templateId := "Pkg:Mod:Asset", payload := "a1",
    stakeholders := ["P1"], observers := [], signatories := ["P1"],
    createdAt := "t", offset := 1, contractKey := none, createdEventBlob := none }

/-- A contract visible only to P2. -/
def p2Contract : Contract :=
  { contractId := "c2", templateId := "Pkg:Mod:Asset", payload := "a2",
    stakeholders := ["P2"], observers := [], signatories := ["P2"],
    createdAt := "t", offset := 2, contractKey := none, createdEventBlob := none }

/-- The ledger of the race scenario: each party sees exactly its own
contract. -/
def raceLedger (partyId : String) : List Contract :=
  if partyId = "P1" then [p1Contract]
  else if partyId = "P2" then [p2Contract]
  else []

/-- A connected store with active party P1 and no data loaded yet. -/
def connectedP1 : StoreState :=
  { config := some { endpoint := "http://node", authToken := none }
    status :=
      { connected := true, endpoint := "http://node", ledgerEnd := some 1,
        participantId := none, error := none }
    client := some 0
    activeParty := some p1
    availableParties := [p1, p2]
    viewAsObserver := false
    contracts := []
    transactions := []
    templates := []
    lastOffset := 0
    isLoading := false
    error := none }

/-- The race interleaving: a load for P1 goes out; the active party
switches to P2, issuing a second load; the P2 response arrives first;
the stale P1 response arrives last. -/
def staleTrace : List StoreEvent :=
  [ .startLoadContracts,
    .setActiveParty p2,
    .completeLoadContracts 1,
    .completeLoadContracts 0 ]

/-- A disconnected store (the initial store state). -/
def disconnectedState : StoreState :=
  { config := none
    status :=
      { connected := false, endpoint := "", ledgerEnd := none,
        participantId := none, error := none }
    client := none
    activeParty := none
    availableParties := []
    viewAsObserver := false
    contracts := []
    transactions := []
    templates := []
    lastOffset := 0
    isLoading := false
    error := none }

/-- A probe result reporting the endpoint unreachable. -/
def failedProbe : ConnectionStatus :=
  { connected := false, endpoint := "http://new", ledgerEnd := none,
    participantId := none, error := some "connection refused" }

/-- The scheduler state the race interleaving ends in. -/
def raceFinal : SchedulerState :=
  runStore raceLedger { store := connectedP1, pendingLoads := [] } staleTrace

end Store

/-- C2: the race the store does not guard against.  Starting connected as
P1, a contracts load goes out for P1; `setActiveParty` switches to P2 and
issues a P2 load; the P2 response commits first and the stale P1 response
commits last.  The final snapshot holds exactly P1's contract even though
the active party is P2 — the code evaluates to the stale snapshot at this
interleaving, refuting the no-residual-P1-data requirement. -/
theorem staleLoad_overwrites_fresh_snapshot :
    Store.raceFinal.store.activeParty = some Store.p2 ∧
    Store.raceFinal.store.contracts = [("c1", Store.p1Contract)] ∧
    Store.contractMapOf (Store.raceLedger "P2") = [("c2", Store.p2Contract)] ∧
    ("c1", Store.p1Contract) ∉ Store.contractMapOf (Store.raceLedger "P2") ∧
    Store.raceFinal.pendingLoads = [] := by
  refine ⟨rfl, rfl, rfl, by decide, rfl⟩

/-- C7: when a load fails on a store that has a client and an active
party, the resulting state is the old state with only the error string
recorded and the loading flag dropped — contracts, transactions, templates,
lastOffset and every other field are untouched. -/
theorem load_failure_preserves_data (s : Store.StoreState) (e1 e2 : Thrown)
    (hc : s.client.isSome = true) (hp : s.activeParty.isSome = true) :
    Store.loadContracts s (.error e1)
      = { s with error := some (thrownMessage e1 "Failed to load contracts"),
                 isLoading := false } ∧
    Store.loadTransactions s (.error e2)
      = { s with error := some (thrownMessage e2 "Failed to load transactions"),
                 isLoading := false } := by
  obtain ⟨c, hc2⟩ := Option.isSome_iff_exists.mp hc
  obtain ⟨p, hp2⟩ := Option.isSome_iff_exists.mp hp
  constructor <;>
    simp [Store.loadContracts, Store.loadContractsStart, Store.loadContractsFinish,
      Store.loadTransactions, Store.loadTransactionsStart, Store.loadTransactionsFinish,
      hc2, hp2]

/-- Witness for C7 at a concrete connected store and a thrown Error. -/
theorem load_failure_preserves_data_witness :
    Store.loadContracts Store.connectedP1 (.error (.isError "boom"))
      = { Store.connectedP1 with error := some "boom", isLoading := false } :=
  (load_failure_preserves_data Store.connectedP1 (.isError "boom") (.isError "boom")
    rfl rfl).1

/-- C8 counterexample: a store holding client 0 from an earlier successful
connection attempts `connect` to a new endpoint; the probe fails.  The
resulting state does record the error and stay disconnected, but its
`client` field still refers to the previously created client 0 — the
no-stale-client-reference part of the claim is false on the code. -/
theorem connect_failure_keeps_old_client :
    Store.connectedP1.client = some 0 ∧
    ((Store.connect Store.connectedP1 { endpoint := "http://new", authToken := none } 1
        Store.failedProbe (.ok [])).1).client = some 0 ∧
    ((Store.connect Store.connectedP1 { endpoint := "http://new", authToken := none } 1
        Store.failedProbe (.ok [])).1).status.connected = false := by
  refine ⟨rfl, by decide, by decide⟩

/-- C8 (amended): whenever `connect` resolves false — the probe reports not
connected or fetching parties throws — the store records an error, its
status is disconnected, loading is off, and the client created by this
attempt is never stored: the `client` field is exactly what it was before
the call (so a client from an earlier successful connection remains). -/
theorem connect_failure_spec (s : Store.StoreState) (config : ConnectionConfig)
    (clientId : Nat) (probe : ConnectionStatus) (parties : Except Thrown (List Party))
    (h : (Store.connect s config clientId probe parties).2 = false) :
    ((Store.connect s config clientId probe parties).1).error.isSome = true ∧
    ((Store.connect s config clientId probe parties).1).status.connected = false ∧
    ((Store.connect s config clientId probe parties).1).isLoading = false ∧
    ((Store.connect s config clientId probe parties).1).client = s.client := by
  by_cases hc : probe.connected = false
  · simp [Store.connect, hc]
  · cases parties with
    | ok ps => simp [Store.connect, hc] at h
    | error e => simp [Store.connect, hc]

/-- Witness for the amended C8 theorem: a fresh store attempts to connect,
the probe fails, and no client reference is stored. -/
theorem connect_failure_spec_witness :
    ((Store.connect Store.disconnectedState { endpoint := "http://new", authToken := none } 1
        Store.failedProbe (.ok [])).1).client = Store.disconnectedState.client :=
  (connect_failure_spec Store.disconnectedState { endpoint := "http://new", authToken := none }
    1 Store.failedProbe (.ok []) (by decide)).2.2.2

/-- C10: with no client or no active party, `loadContracts` and
`loadTransactions` return the store state entirely unchanged, whatever the
would-be responses are — no flag, no error, no data field moves. -/
theorem load_noop_when_disconnected (s : Store.StoreState)
    (rc : Except Thrown (List Contract)) (rt : Except Thrown (List Transaction))
    (h : s.client = none ∨ s.activeParty = none) :
    Store.loadContracts s rc = s ∧ Store.loadTransactions s rt = s := by
  have hstartC : Store.loadContractsStart s = (s, none) := by
    rcases h with h | h
    · simp [Store.loadContractsStart, h]
    · cases hcl : s.client <;> simp [Store.loadContractsStart, h, hcl]
  have hstartT : Store.loadTransactionsStart s = (s, none) := by
    rcases h with h | h
    · simp [Store.loadTransactionsStart, h]
    · cases hcl : s.client <;> simp [Store.loadTransactionsStart, h, hcl]
  constructor
  · simp [Store.loadContracts, hstartC]
  · simp [Store.loadTransactions, hstartT]

/-- Witness for C10 at the initial disconnected store. -/
theorem load_noop_when_disconnected_witness :
    Store.loadContracts Store.disconnectedState (.ok [Store.p1Contract])
      = Store.disconnectedState :=
  (load_noop_when_disconnected Store.disconnectedState (.ok [Store.p1Contract]) (.ok [])
    (Or.inl rfl)).1

namespace ScanExplorer

open Canton

/-- One approved scan endpoint, from the `ScanEndpoint` interface in
types/canton.ts. -/
structure ScanEndpoint where
  publicUrl : String
  svName : String
  deriving DecidableEq, Repr

/-- Scan endpoints of one domain, from the `ScanDomainEntry` interface. -/
structure ScanDomainEntry where
  domainId : String
  scans : List ScanEndpoint
  deriving DecidableEq, Repr

/-- Response of `getScans`; the field is optional to model a response body
missing it, which the page guards with `scansRes.scans || []`. -/
structure ScanScansResponse where
  scans : Option (List ScanDomainEntry)
  deriving DecidableEq, Repr

/-- One event of an update summary, from the `events_by_id` record value
type of `ScanUpdateSummary` in types/canton.ts. -/
structure ScanUpdateEvent where
  template_id : Option String
  event_type : Option String
  choice : Option String
  deriving DecidableEq, Repr

/-- Update summary, from the `ScanUpdateSummary` interface.  The source's
`record_time` ISO-8601 string is modelled by the epoch-millisecond value
that `new Date(record_time).getTime()` yields; `events_by_id` is the
record in insertion order. -/
structure ScanUpdateSummary where
  update_id : String
  record_time : Int
  migration_id : Int
  synchronizer_id : String
  root_event_ids : List String
  events_by_id : List (String × ScanUpdateEvent)
  deriving DecidableEq, Repr

/-- Response of `getUpdates`; optional field guarded by
`updatesRes.transactions || []` in the page. -/
structure ScanUpdatesResponse where
  transactions : Option (List ScanUpdateSummary)
  deriving DecidableEq, Repr

/-- One statistics entry, from the `CantonScanStatsEntry` interface in
types/cantonScan.ts; numeric-or-string values are modelled as strings. -/
structure CantonScanStatsEntry where
  value : String
  percentChange : Int
  deriving DecidableEq, Repr

/-- Network statistics, from the `CantonScanStatsResponse` interface. -/
structure CantonScanStatsResponse where
  totalCirculation : CantonScanStatsEntry
  burnVolume24h : CantonScanStatsEntry
  activeAddresses24h : CantonScanStatsEntry
  privateUpdates24h : CantonScanStatsEntry
  totalTransfers24h : CantonScanStatsEntry
  deriving DecidableEq, Repr

/-- Price response, from the `CantonScanPriceResponse` interface (the
per-source price map is not consumed by the aggregator and is omitted). -/
structure CantonScanPriceResponse where
  price : String
  symbol : String
  timestamp : String
  total_circulating_supply : String
  deriving DecidableEq, Repr

/-- One latest-update entry, from the `CantonScanUpdateEntry` interface
(fields beyond the identifier are not consumed by the aggregator). -/
structure CantonScanUpdateEntry where
  id : String
  createdAt : String
  migrationId : Int
  deriving DecidableEq, Repr

/-- Latest-updates response, from the `CantonScanUpdatesResponse`
interface. -/
structure CantonScanUpdatesResponse where
  data : List CantonScanUpdateEntry
  deriving DecidableEq, Repr

/-- One activity-history entry, from the
`CantonScanActivityHistoryEntry` interface. -/
structure CantonScanActivityHistoryEntry where
  roundId : Int
  timestamp : String
  publicUpdatesCount : Int
  privateUpdatesCount : Int
  deriving DecidableEq, Repr

/-- One price-history entry, from the `CantonScanPriceHistoryEntry`
interface; the floating price is not computed with here and is kept as a
string. -/
structure CantonScanPriceHistoryEntry where
  timestamp : String
  price : String
  deriving DecidableEq, Repr

/-- Activity-history response shape the aggregator destructures; optional
field guarded by `activityRes.data || []`. -/
structure ActivityHistoryResponse where
  data : Option (List CantonScanActivityHistoryEntry)
  deriving DecidableEq, Repr

/-- Price-history response shape the aggregator destructures; optional
field guarded by `priceHistRes.data || []`. -/
structure PriceHistoryResponse where
  data : Option (List CantonScanPriceHistoryEntry)
  deriving DecidableEq, Repr

/-- One validator entry, from the `CantonScanValidatorEntry` interface
(only the identifier is needed here). -/
structure CantonScanValidatorEntry where
  id : String
  version : Option String
  deriving DecidableEq, Repr

/-- Validators response, from the `CantonScanValidatorsResponse` union in
types/cantonScan.ts: either a bare array, or an object with optional
`data` and `validators` fields. -/
inductive CantonScanValidatorsResponse where
  | arr (entries : List CantonScanValidatorEntry)
  | obj (data : Option (List CantonScanValidatorEntry))
        (validators : Option (List CantonScanValidatorEntry))
  deriving DecidableEq, Repr

/-- Evaluates the page expression
`Array.isArray(v) ? v : v.data || v.validators || []` (part_004 lines
142-144); an empty present array is truthy in JS and wins just like
`Option.getD` keeps an empty present list. -/
def validatorListOf (v : CantonScanValidatorsResponse) : List CantonScanValidatorEntry :=
  match v with
  | .arr entries => entries
  | .obj data validators => data.getD (validators.getD [])

/-- Facet state the explorer page ends in after `fetchExplorerData`
settles: the eight facet `useState` slots plus the error banner and
loading flag. -/
structure ExplorerState where
  scans : List ScanDomainEntry
  updates : List ScanUpdateSummary
  stats : Option CantonScanStatsResponse
  price : Option CantonScanPriceResponse
  cantonScanUpdates : Option CantonScanUpdatesResponse
  activityHistory : List CantonScanActivityHistoryEntry
  priceHistory : List CantonScanPriceHistoryEntry
  validators : List CantonScanValidatorEntry
  error : Option String
  isLoading : Bool
  deriving DecidableEq, Repr

/-- Evaluates the aggregator helper
`getVal(result, defaultVal) = fulfilled ? value : defaultVal`. -/
def getVal {α : Type} (result : Except String α) (defaultVal : α) : α :=
  match result with
  | .ok v => v
  | .error _ => defaultVal

/-- True when a settled promise outcome is rejected. -/
def isRejected {α : Type} (result : Except String α) : Bool :=
  match result with
  | .ok _ => false
  | .error _ => true

/-- Embeds `fetchExplorerData` (part_004 lines 105-158).  The eight
arguments are the settled outcomes of the `Promise.allSettled` fan-out, in
source order: scan directory, update history, stats, price, latest
updates, activity history, price history, validators.  Every facet is
committed from its own outcome before the primary-failure check; the
thrown top-level error is caught by the surrounding handler and recorded,
and the loading flag always drops in the `finally`. -/
def fetchExplorerData
    (r0 : Except String ScanScansResponse)
    (r1 : Except String ScanUpdatesResponse)
    (r2 : Except String CantonScanStatsResponse)
    (r3 : Except String CantonScanPriceResponse)
    (r4 : Except String CantonScanUpdatesResponse)
    (r5 : Except String ActivityHistoryResponse)
    (r6 : Except String PriceHistoryResponse)
    (r7 : Except String CantonScanValidatorsResponse) : ExplorerState :=
  let scansRes := getVal r0 { scans := some [] }
  let updatesRes := getVal r1 { transactions := some [] }
  let activityRes := getVal r5 { data := some [] }
  let priceHistRes := getVal r6 { data := some [] }
  let validatorsRes := getVal r7 (.obj none (some []))
  { scans := scansRes.scans.getD []
    updates := updatesRes.transactions.getD []
    stats := match r2 with | .ok v => some v | .error _ => none
    price := match r3 with | .ok v => some v | .error _ => none
    cantonScanUpdates := match r4 with | .ok v => some v | .error _ => none
    activityHistory := activityRes.data.getD []
    priceHistory := priceHistRes.data.getD []
    validators := validatorListOf validatorsRes
    error :=
      if isRejected r0 && isRejected r1 then
        some "Could not connect to Scan API. Please check your network or URL."
      else none
    isLoading := false }

end ScanExplorer

/-- C5: in the eight-way explorer aggregation, the top-level error exists
exactly when both primary calls (scan directory, update history) fail;
every succeeding facet is populated from its own result and every failing
facet falls back to its documented empty default (empty list or null),
independently of the other calls; loading always ends. -/
theorem fetchExplorerData_spec
    (r0 : Except String ScanExplorer.ScanScansResponse)
    (r1 : Except String ScanExplorer.ScanUpdatesResponse)
    (r2 : Except String ScanExplorer.CantonScanStatsResponse)
    (r3 : Except String ScanExplorer.CantonScanPriceResponse)
    (r4 : Except String ScanExplorer.CantonScanUpdatesResponse)
    (r5 : Except String ScanExplorer.ActivityHistoryResponse)
    (r6 : Except String ScanExplorer.PriceHistoryResponse)
    (r7 : Except String ScanExplorer.CantonScanValidatorsResponse) :
    ((ScanExplorer.fetchExplorerData r0 r1 r2 r3 r4 r5 r6 r7).error.isSome
      ↔ ScanExplorer.isRejected r0 = true ∧ ScanExplorer.isRejected r1 = true) ∧
    (∀ v, r0 = .ok v →
      (ScanExplorer.fetchExplorerData r0 r1 r2 r3 r4 r5 r6 r7).scans = v.scans.getD []) ∧
    (ScanExplorer.isRejected r0 = true →
      (ScanExplorer.fetchExplorerData r0 r1 r2 r3 r4 r5 r6 r7).scans = []) ∧
    (∀ v, r1 = .ok v →
      (ScanExplorer.fetchExplorerData r0 r1 r2 r3 r4 r5 r6 r7).updates
        = v.transactions.getD []) ∧
    (ScanExplorer.isRejected r1 = true →
      (ScanExplorer.fetchExplorerData r0 r1 r2 r3 r4 r5 r6 r7).updates = []) ∧
    (∀ v, r2 = .ok v →
      (ScanExplorer.fetchExplorerData r0 r1 r2 r3 r4 r5 r6 r7).stats = some v) ∧
    (ScanExplorer.isRejected r2 = true →
      (ScanExplorer.fetchExplorerData r0 r1 r2 r3 r4 r5 r6 r7).stats = none) ∧
    (∀ v, r3 = .ok v →
      (ScanExplorer.fetchExplorerData r0 r1 r2 r3 r4 r5 r6 r7).price = some v) ∧
    (ScanExplorer.isRejected r3 = true →
      (ScanExplorer.fetchExplorerData r0 r1 r2 r3 r4 r5 r6 r7).price = none) ∧
    (∀ v, r4 = .ok v →
      (ScanExplorer.fetchExplorerData r0 r1 r2 r3 r4 r5 r6 r7).cantonScanUpdates = some v) ∧
    (ScanExplorer.isRejected r4 = true →
      (ScanExplorer.fetchExplorerData r0 r1 r2 r3 r4 r5 r6 r7).cantonScanUpdates = none) ∧
    (∀ v, r5 = .ok v →
      (ScanExplorer.fetchExplorerData r0 r1 r2 r3 r4 r5 r6 r7).activityHistory
        = v.data.getD []) ∧
    (ScanExplorer.isRejected r5 = true →
      (ScanExplorer.fetchExplorerData r0 r1 r2 r3 r4 r5 r6 r7).activityHistory = []) ∧
    (∀ v, r6 = .ok v →
      (ScanExplorer.fetchExplorerData r0 r1 r2 r3 r4 r5 r6 r7).priceHistory
        = v.data.getD []) ∧
    (ScanExplorer.isRejected r6 = true →
      (ScanExplorer.fetchExplorerData r0 r1 r2 r3 r4 r5 r6 r7).priceHistory = []) ∧
    (∀ v, r7 = .ok v →
      (ScanExplorer.fetchExplorerData r0 r1 r2 r3 r4 r5 r6 r7).validators
        = ScanExplorer.validatorListOf v) ∧
    (ScanExplorer.isRejected r7 = true →
      (ScanExplorer.fetchExplorerData r0 r1 r2 r3 r4 r5 r6 r7).validators = []) ∧
    (ScanExplorer.fetchExplorerData r0 r1 r2 r3 r4 r5 r6 r7).isLoading = false := by
  refine ⟨?_, ?_, ?_, ?_, ?_, ?_, ?_, ?_, ?_, ?_, ?_, ?_, ?_, ?_, ?_, ?_, ?_, rfl⟩
  · cases r0 <;> cases r1 <;>
      simp [ScanExplorer.fetchExplorerData, ScanExplorer.isRejected]
  · intro v hv
    subst hv
    simp [ScanExplorer.fetchExplorerData, ScanExplorer.getVal]
  · intro hrej
    cases r0 with
    | ok v => simp [ScanExplorer.isRejected] at hrej
    | error m => simp [ScanExplorer.fetchExplorerData, ScanExplorer.getVal]
  · intro v hv
    subst hv
    simp [ScanExplorer.fetchExplorerData, ScanExplorer.getVal]
  · intro hrej
    cases r1 with
    | ok v => simp [ScanExplorer.isRejected] at hrej
    | error m => simp [ScanExplorer.fetchExplorerData, ScanExplorer.getVal]
  · intro v hv
    subst hv
    simp [ScanExplorer.fetchExplorerData, ScanExplorer.getVal]
  · intro hrej
    cases r2 with
    | ok v => simp [ScanExplorer.isRejected] at hrej
    | error m => simp [ScanExplorer.fetchExplorerData, ScanExplorer.getVal]
  · intro v hv
    subst hv
    simp [ScanExplorer.fetchExplorerData, ScanExplorer.getVal]
  · intro hrej
    cases r3 with
    | ok v => simp [ScanExplorer.isRejected] at hrej
    | error m => simp [ScanExplorer.fetchExplorerData, ScanExplorer.getVal]
  · intro v hv
    subst hv
    simp [ScanExplorer.fetchExplorerData, ScanExplorer.getVal]
  · intro hrej
    cases r4 with
    | ok v => simp [ScanExplorer.isRejected] at hrej
    | error m => simp [ScanExplorer.fetchExplorerData, ScanExplorer.getVal]
  · intro v hv
    subst hv
    simp [ScanExplorer.fetchExplorerData, ScanExplorer.getVal]
  · intro hrej
    cases r5 with
    | ok v => simp [ScanExplorer.isRejected] at hrej
    | error m => simp [ScanExplorer.fetchExplorerData, ScanExplorer.getVal]
  · intro v hv
    subst hv
    simp [ScanExplorer.fetchExplorerData, ScanExplorer.getVal]
  · intro hrej
    cases r6 with
    | ok v => simp [ScanExplorer.isRejected] at hrej
    | error m => simp [ScanExplorer.fetchExplorerData, ScanExplorer.getVal]
  · intro v hv
    subst hv
    simp [ScanExplorer.fetchExplorerData, ScanExplorer.getVal]
  · intro hrej
    cases r7 with
    | ok v => simp [ScanExplorer.isRejected] at hrej
    | error m =>
      simp [ScanExplorer.fetchExplorerData, ScanExplorer.getVal,
        ScanExplorer.validatorListOf]

/-- Witness for C5: both primary calls succeed while all six secondary
calls fail; the stats facet degrades to its null default (and, by the
main theorem's iff, no top-level error is raised). -/
theorem fetchExplorerData_spec_witness :
    (ScanExplorer.fetchExplorerData (.ok { scans := some [] })
      (.ok { transactions := some [] }) (.error "down") (.error "down") (.error "down")
      (.error "down") (.error "down") (.error "down")).stats = none :=
  (fetchExplorerData_spec (.ok { scans := some [] }) (.ok { transactions := some [] })
    (.error "down") (.error "down") (.error "down") (.error "down") (.error "down")
    (.error "down")).2.2.2.2.2.2.1 rfl

namespace ScanExplorer

/-- Embeds `formatAge` (part_004 lines 41-51).  Both instants are epoch
milliseconds; `Math.floor` of a real division is integer floor division. -/
def formatAge (now isoTime : Int) : String :=
  let diff := now - isoTime
  let seconds := max 0 (Int.fdiv diff 1000)
  if seconds < 60 then s!"{seconds}s ago"
  else
    let minutes := Int.fdiv seconds 60
    if minutes < 60 then s!"{minutes}m ago"
    else
      let hours := Int.fdiv minutes 60
      if hours < 24 then s!"{hours}h ago"
      else
        let days := Int.fdiv hours 24
        s!"{days}d ago"

/-- Checks whether the pattern occurs as a contiguous run of the second
character list; evaluates JavaScript `String.prototype.includes`. -/
def charsStartWith (pat l : List Char) : Bool :=
  match pat, l with
  | [], _ => true
  | _ :: _, [] => false
  | a :: as, b :: bs => a == b && charsStartWith as bs

/-- Full substring search over character lists. -/
def charsContain (pat l : List Char) : Bool :=
  match l with
  | [] => pat.isEmpty
  | _ :: rest => charsStartWith pat l || charsContain pat rest

/-- Evaluates `s.includes(pat)`. -/
def stringIncludes (s pat : String) : Bool :=
  charsContain pat.toList s.toList

/-- Evaluates `s.toLowerCase()` (the labels involved are ASCII). -/
def toLowerString (s : String) : String :=
  String.mk (s.toList.map Char.toLower)

/-- Evaluates `t.split(line-colon).pop()`: the characters after the last
colon of the string, the whole string when it has no colon. -/
def lastColonSegment (t : String) : String :=
  String.mk (t.toList.foldl (fun acc c => if c == ':' then [] else acc ++ [c]) [])

/-- Evaluates the label expression of `extractTransfers` (part_004 line
72): the choice name when truthy, otherwise the last colon-separated
segment of the template id, otherwise the empty string. -/
def eventLabel (event : ScanUpdateEvent) : String :=
  jsOr event.choice
    (match event.template_id with
     | some t => lastColonSegment t
     | none => "")

/-- Evaluates the match test of `extractTransfers` (part_004 line 74). -/
def isTransferLabel (label : String) : Bool :=
  stringIncludes (toLowerString label) "transfer"

/-- One extracted transfer row, from the `TransferEvent` interface in
part_004. -/
structure TransferEvent where
  updateId : String
  label : String
  age : String
  deriving DecidableEq, Repr

/-- Embeds `extractTransfers` (part_004 lines 67-85).  `now` is the
`Date.now()` instant `formatAge` reads.  Events are visited in update
order then record insertion order, empty labels are skipped, matching is
the case-insensitive substring test on the label, and the accumulated
list is truncated to its first 8 entries. -/
def extractTransfers (now : Int) (updates : List ScanUpdateSummary) : List TransferEvent :=
  let transfers := (updates.map fun update =>
    (update.events_by_id.map Prod.snd).filterMap fun event =>
      let label := eventLabel event
      if label = "" then none
      else if isTransferLabel label then
        some { updateId := update.update_id, label := label,
               age := formatAge now update.record_time }
      else none).flatten
  transfers.take 8

/-- Restates the body of `extractTransfers` as filter-then-map over
labels, the shape the amended claim describes: keep exactly the events
whose nonempty label contains "transfer" case-insensitively, annotated
with the update id and bucketed age. -/
def transferMatches (now : Int) (updates : List ScanUpdateSummary) : List TransferEvent :=
  (updates.map fun update =>
    (((update.events_by_id.map Prod.snd).map eventLabel).filter
        fun label => label != "" && isTransferLabel label).map
      fun label =>
        { updateId := update.update_id, label := label,
          age := formatAge now update.record_time }).flatten

/-- An exercised event whose choice matches "transfer" exactly as written. -/
def transferAcceptEvent : ScanUpdateEvent :=
  { template_id := some "Pkg:Mod:Token", event_type := some "exercised_event",
    choice := some "Transfer_Accept" }

/-- An exercised event whose choice does not mention transfers. -/
def noopChoiceEvent : ScanUpdateEvent :=
  { template_id := some "Pkg:Mod:Token", event_type := some "exercised_event",
    choice := some "Noop" }

/-- An exercised event whose choice matches "transfer" in upper case. -/
def transferRejectEvent : ScanUpdateEvent :=
  { template_id := some "Pkg:Mod:Token", event_type := some "exercised_event",
    choice := some "TRANSFER_reject" }

/-- The update of the claim's worked example, carrying the three choices
Transfer_Accept, Noop and TRANSFER_reject. -/
def exampleUpdate : ScanUpdateSummary :=
  { update_id := "u0", record_time := 0, migration_id := 0, synchronizer_id := "s",
    root_event_ids := ["e1", "e2", "e3"],
    events_by_id :=
      [("e1", transferAcceptEvent), ("e2", noopChoiceEvent), ("e3", transferRejectEvent)] }

/-- An event with a non-transfer choice on a transfer template: the choice
is truthy, so the template name is never consulted. -/
def noopTransferTemplateEvent : ScanUpdateEvent :=
  { template_id := some "Pkg:Mod:TransferProposal", event_type := some "exercised_event",
    choice := some "Noop" }

/-- A single-event update wrapping `noopTransferTemplateEvent`. -/
def noopTransferUpdate : ScanUpdateSummary :=
  { update_id := "u1", record_time := 0, migration_id := 0, synchronizer_id := "s",
    root_event_ids := ["e1"],
    events_by_id := [("e1", noopTransferTemplateEvent)] }

end ScanExplorer

/-- Rewrites the filterMap body of `extractTransfers` as filter followed
by map over the event labels of one update. -/
theorem transferRows_eq (uid age : String) :
    ∀ events : List ScanExplorer.ScanUpdateEvent,
      (events.filterMap fun event =>
        let label := ScanExplorer.eventLabel event
        if label = "" then none
        else if ScanExplorer.isTransferLabel label then
          some { updateId := uid, label := label, age := age : ScanExplorer.TransferEvent }
        else none)
      = (((events.map ScanExplorer.eventLabel).filter
            fun label => label != "" && ScanExplorer.isTransferLabel label).map
          fun label =>
            { updateId := uid, label := label, age := age : ScanExplorer.TransferEvent })
  | [] => rfl
  | e :: rest => by
    by_cases h1 : ScanExplorer.eventLabel e = ""
    · simpa [h1] using transferRows_eq uid age rest
    · by_cases h2 : ScanExplorer.isTransferLabel (ScanExplorer.eventLabel e)
      · simpa [h1, h2] using transferRows_eq uid age rest
      · simpa [h1, h2] using transferRows_eq uid age rest

/-- C9 counterexample: the event of `noopTransferUpdate` has a template
name (last colon segment "TransferProposal") that contains "transfer"
case-insensitively, so the claim says it must be extracted; the code
labels the event by its truthy choice "Noop" and never consults the
template name, returning no transfer rows. -/
theorem extractTransfers_choice_shadows_template :
    ScanExplorer.lastColonSegment "Pkg:Mod:TransferProposal" = "TransferProposal" ∧
    ScanExplorer.isTransferLabel (ScanExplorer.lastColonSegment "Pkg:Mod:TransferProposal")
      = true ∧
    ScanExplorer.extractTransfers 0 [ScanExplorer.noopTransferUpdate] = [] := by
  refine ⟨by decide, by decide, by decide⟩

/-- C9 (amended): `extractTransfers` returns exactly the events whose
label — the exercised choice name when truthy, otherwise the last
colon-separated segment of the template id — is nonempty and contains
"transfer" case-insensitively, in traversal order, capped to the first 8
matches (the most recent, as updates arrive newest first), each annotated
with the update id and the bucketed relative-age string; on the worked
example with choices Transfer_Accept, Noop and TRANSFER_reject exactly
the two transfer choices are extracted. -/
theorem extractTransfers_amended (now : Int)
    (updates : List ScanExplorer.ScanUpdateSummary) :
    ScanExplorer.extractTransfers now updates
      = (ScanExplorer.transferMatches now updates).take 8 ∧
    (ScanExplorer.extractTransfers now updates).length ≤ 8 ∧
    (ScanExplorer.extractTransfers 0 [ScanExplorer.exampleUpdate]).map
        ScanExplorer.TransferEvent.label
      = ["Transfer_Accept", "TRANSFER_reject"] := by
  refine ⟨?_, ?_, by decide⟩
  · unfold ScanExplorer.extractTransfers ScanExplorer.transferMatches
    refine congrArg (List.take 8) (congrArg List.flatten ?_)
    exact List.map_congr_left fun u _ =>
      transferRows_eq u.update_id (ScanExplorer.formatAge now u.record_time)
        (u.events_by_id.map Prod.snd)
  · have h := List.length_take_le 8
      ((updates.map fun update =>
        (update.events_by_id.map Prod.snd).filterMap fun event =>
          let label := ScanExplorer.eventLabel event
          if label = "" then none
          else if ScanExplorer.isTransferLabel label then
            some { updateId := update.update_id, label := label,
                   age := ScanExplorer.formatAge now update.record_time
                   : ScanExplorer.TransferEvent }
          else none).flatten)
    simp [ScanExplorer.extractTransfers] at h ⊢
